import Mathlib

/-!
Verification of the OpenAI-compatible chat-completions layer of this
repository: the text-cleanup function `remove_think_tags`
(src/utils/text_utils.py), the wire-format data model
(src/server/openai_models.py), and the request handler, which is modelled
from the design document because src/server/app.py is not part of the
source tree (only its tests are).
-/

namespace DeerFlow

/-! ### Text cleanup: src/utils/text_utils.py

`remove_think_tags(text)` is `re.sub(r"<think>.*?</think>", "", text,
flags=re.DOTALL)`.  `re.sub` repeatedly finds the leftmost match and,
because `.*?` is lazy, a match starting at an occurrence of `<think>`
extends exactly to the end of the first occurrence of `</think>` that
starts at least 7 characters later; matched spans are deleted and scanning
resumes right after the deleted span.  The embedding below implements this
on `List Char` with a fuel argument equal to the input length (each step
consumes at least one character, so the fuel never runs out on the real
call). -/

def openTag : List Char := ['<', 't', 'h', 'i', 'n', 'k', '>']

def closeTag : List Char := ['<', '/', 't', 'h', 'i', 'n', 'k', '>']

/-- First occurrence of `closeTag`: returns the remainder of the list just
after that occurrence, or `none` when `closeTag` does not occur. -/
def findClose : List Char → Option (List Char)
  | [] => none
  | c :: rest =>
    if closeTag.isPrefixOf (c :: rest) then some (List.drop closeTag.length (c :: rest))
    else findClose rest

/-- One pass of `re.sub(r"<think>.*?</think>", "", ·)`: at each position,
if `<think>` starts here and `</think>` occurs later, delete through the
end of that first `</think>` and continue after it; if `<think>` starts
here but no `</think>` follows, no further match is possible anywhere, so
the rest is kept verbatim; otherwise keep the character and move on. -/
def removeAux : Nat → List Char → List Char
  | 0, l => l
  | _ + 1, [] => []
  | f + 1, c :: rest =>
    if openTag.isPrefixOf (c :: rest) then
      match findClose (List.drop openTag.length (c :: rest)) with
      | some after => removeAux f after
      | none => c :: rest
    else
      c :: removeAux f rest

def remove_think_tags (s : String) : String :=
  String.mk (removeAux s.data.length s.data)

/-- Whether the regex `<think>.*?</think>` (DOTALL) matches somewhere in
the list: some occurrence of `<think>` is followed, at least 7 characters
later, by an occurrence of `</think>`. -/
def hasMatch : List Char → Bool
  | [] => false
  | c :: rest =>
    (openTag.isPrefixOf (c :: rest) && (findClose (List.drop openTag.length (c :: rest))).isSome)
    || hasMatch rest

theorem removeAux_of_not_hasMatch :
    ∀ (f : Nat) (l : List Char), hasMatch l = false → removeAux f l = l := by
  intro f
  induction f with
  | zero => intro l _; rfl
  | succ f ih =>
    intro l h
    cases l with
    | nil => rfl
    | cons c rest =>
      have h2 : (openTag.isPrefixOf (c :: rest)
          && (findClose (List.drop openTag.length (c :: rest))).isSome) = false
          ∧ hasMatch rest = false := by
        have := h
        unfold hasMatch at this
        exact Bool.or_eq_false_iff.mp this
      cases hp : openTag.isPrefixOf (c :: rest) with
      | false =>
        unfold removeAux
        rw [hp]
        simp only [Bool.false_eq_true, if_false]
        rw [ih rest h2.2]
      | true =>
        have hsome : (findClose (List.drop openTag.length (c :: rest))).isSome = false := by
          have := h2.1
          rw [hp] at this
          simpa using this
        have hnone : findClose (List.drop openTag.length (c :: rest)) = none :=
          Option.not_isSome_iff_eq_none.mp (by simp [hsome])
        unfold removeAux
        rw [hp]
        simp only [if_true]
        rw [hnone]

/-! ### Wire-format data model: src/server/openai_models.py -/

structure OpenAIMessage where
  role : String
  content : String
  name : Option String := none
  deriving Repr, DecidableEq

structure OpenAIChatCompletionRequest where
  model : String
  messages : List OpenAIMessage
  stream : Option Bool := some false
  max_tokens : Option Int := none
  temperature : Option Float := none
  deriving Repr

structure OpenAIChatCompletionChoiceDelta where
  role : Option String := none
  content : Option String := none
  deriving Repr, DecidableEq

structure OpenAIChatCompletionStreamChoice where
  index : Nat
  delta : OpenAIChatCompletionChoiceDelta
  finish_reason : Option String := none
  deriving Repr, DecidableEq

structure OpenAIChatCompletionChunk where
  id : String
  object : String := "chat.completion.chunk"
  created : Nat
  model : String
  choices : List OpenAIChatCompletionStreamChoice
  deriving Repr, DecidableEq

structure OpenAIChatMessageOutput where
  role : String
  content : Option String := none
  deriving Repr, DecidableEq

structure OpenAIUsage where
  prompt_tokens : Nat
  completion_tokens : Nat
  total_tokens : Nat
  deriving Repr, DecidableEq

structure OpenAIChatCompletionChoice where
  index : Nat
  message : OpenAIChatMessageOutput
  finish_reason : Option String := none
  deriving Repr, DecidableEq

structure OpenAIChatCompletionResponse where
  id : String
  object : String := "chat.completion"
  created : Nat
  model : String
  choices : List OpenAIChatCompletionChoice
  usage : OpenAIUsage
  deriving Repr, DecidableEq

structure OpenAIErrorDetail where
  type : String
  message : String
  code : Option String := none
  param : Option String := none
  deriving Repr, DecidableEq

structure OpenAIError where
  error : OpenAIErrorDetail
  deriving Repr, DecidableEq

/-! ### Engine events and the request handler

The handler lives in src/server/app.py, which is not part of the source
tree; everything in this section is modelled from the design document and
checked against the observable behaviour fixed by
src/tests/server/test_openai_api.py. -/

/-- Modelled from the spec: first element of a streaming event payload —
either a message chunk exposing a string `content` attribute, or any other
value (src/server/app.py, absent from the tree, inspects this shape
dynamically). -/
inductive PayloadItem where
  | messageChunk (content : String) : PayloadItem
  | other : PayloadItem
  deriving Repr, DecidableEq

/-- Modelled from the spec: the payload of a raw engine event is either a
two-element structure or some other shape (wrong arity / wrong type). -/
inductive Payload where
  | pair (first : PayloadItem) (second : Option Unit) : Payload
  | nonPair : Payload
  deriving Repr, DecidableEq

/-- Modelled from the spec: one item of `graph.astream` — a source/agent
tag, an opaque metadata mapping, and a payload. -/
structure RawEngineEvent where
  source : String
  metadata : Unit := ()
  payload : Payload
  deriving Repr, DecidableEq

/-- A payload is well shaped when it is a two-element structure whose
first element exposes a non-empty string `content`. -/
def isWellShaped : Payload → Bool
  | Payload.pair (PayloadItem.messageChunk c) _ => c ≠ ""
  | _ => false

/-- Modelled from the spec: the event classifier of src/server/app.py
(absent from the tree) — accepts exactly the well-shaped payloads and
extracts the content as a delta; every other shape yields `none`. -/
def classify (e : RawEngineEvent) : Option OpenAIChatCompletionChoiceDelta :=
  match e.payload with
  | Payload.pair (PayloadItem.messageChunk c) _ =>
    if c = "" then none else some { role := none, content := some c }
  | _ => none

/-- Modelled from the spec: outcome of consuming the engine's event
stream — either clean exhaustion after yielding `events`, or an exception
raised after yielding the prefix `events`. -/
inductive StreamOutcome where
  | ok (events : List RawEngineEvent) : StreamOutcome
  | raisesAfter (events : List RawEngineEvent) : StreamOutcome
  deriving Repr, DecidableEq

/-- Modelled from the spec: outcome of calling `graph.astream` itself —
either a stream is obtained (with some `StreamOutcome`), or the call
raises synchronously before any response bytes are committed. -/
inductive StreamSetup where
  | ok (outcome : StreamOutcome) : StreamSetup
  | raisesBeforeStart (msg : String) : StreamSetup
  deriving Repr, DecidableEq

/-- Modelled from the spec: outcome of the synchronous `graph.ainvoke`
call — a result exposing the final report text, or a raised exception. -/
inductive EngineResult where
  | ok (final_report : String) : EngineResult
  | raises (msg : String) : EngineResult
  deriving Repr, DecidableEq

/-- One item of the SSE body: a framed chunk line, or the literal
sentinel line `data: [DONE]`. -/
inductive SSEItem where
  | chunk (c : OpenAIChatCompletionChunk) : SSEItem
  | done : SSEItem
  deriving Repr, DecidableEq

/-- Modelled from the spec: the mandatory leading role-announcement chunk
of a stream (src/server/app.py, absent from the tree). -/
def roleChunk (id : String) (created : Nat) (model : String) : OpenAIChatCompletionChunk :=
  { id := id, created := created, model := model,
    choices := [{ index := 0,
                  delta := { role := some "assistant", content := some "" },
                  finish_reason := none }] }

/-- Modelled from the spec: a content-delta chunk wrapping one accepted
delta, with null finish reason. -/
def contentChunk (id : String) (created : Nat) (model : String)
    (d : OpenAIChatCompletionChoiceDelta) : OpenAIChatCompletionChunk :=
  { id := id, created := created, model := model,
    choices := [{ index := 0, delta := d, finish_reason := none }] }

/-- Modelled from the spec: the terminal chunk — empty delta (both fields
absent, serialised as the empty object) and finish reason `stop`. -/
def finishChunk (id : String) (created : Nat) (model : String) : OpenAIChatCompletionChunk :=
  { id := id, created := created, model := model,
    choices := [{ index := 0,
                  delta := { role := none, content := none },
                  finish_reason := some "stop" }] }

/-- The content-delta chunks produced for a list of engine events: each
event is classified and accepted deltas are forwarded one-to-one, in
order, with no buffering or coalescing. -/
def chunkItems (id : String) (created : Nat) (model : String)
    (events : List RawEngineEvent) : List SSEItem :=
  (events.filterMap classify).map fun d => SSEItem.chunk (contentChunk id created model d)

/-- Modelled from the spec: the SSE framer of src/server/app.py (absent
from the tree).  The role chunk is emitted before iteration begins; on
clean exhaustion the finish chunk and the `data: [DONE]` sentinel follow;
when the engine stream raises mid-iteration the body simply stops after
the chunks already flushed — no finish chunk, no sentinel, no error
envelope. -/
def encodeStream (id : String) (created : Nat) (model : String) :
    StreamOutcome → List SSEItem
  | StreamOutcome.ok events =>
    SSEItem.chunk (roleChunk id created model) :: chunkItems id created model events
      ++ [SSEItem.chunk (finishChunk id created model), SSEItem.done]
  | StreamOutcome.raisesAfter events =>
    SSEItem.chunk (roleChunk id created model) :: chunkItems id created model events

/-- The body of an HTTP response: an SSE stream, a completion object, or
an error envelope. -/
inductive HttpBody where
  | sse (items : List SSEItem) : HttpBody
  | json (resp : OpenAIChatCompletionResponse) : HttpBody
  | errorJson (e : OpenAIError) : HttpBody
  deriving Repr, DecidableEq

structure HttpResponse where
  status : Nat
  body : HttpBody
  deriving Repr, DecidableEq

/-- Modelled from the spec: the envelope builder for the aggregated
(non-streaming) response — single choice at index 0, assistant role,
finish reason `stop`, and placeholder zero usage. -/
def buildCompletionResponse (id : String) (created : Nat) (model : String)
    (content : String) : OpenAIChatCompletionResponse :=
  { id := id, created := created, model := model,
    choices := [{ index := 0,
                  message := { role := "assistant", content := some content },
                  finish_reason := some "stop" }],
    usage := { prompt_tokens := 0, completion_tokens := 0, total_tokens := 0 } }

/-- Modelled from the spec: the error mapper's envelope for a failure
that occurs before any response bytes are committed. -/
def internalErrorResponse (msg : String) : HttpResponse :=
  { status := 500,
    body := HttpBody.errorJson
      { error := { type := "internal_server_error", message := msg } } }

/-- Modelled from the spec: the aggregator path of src/server/app.py
(absent from the tree) — on success the final report is cleaned with
`remove_think_tags` and wrapped; on failure a 500 error envelope is
returned. -/
def handleNonStreaming (id : String) (created : Nat) (model : String)
    (r : EngineResult) : HttpResponse :=
  match r with
  | EngineResult.ok text =>
    { status := 200,
      body := HttpBody.json (buildCompletionResponse id created model (remove_think_tags text)) }
  | EngineResult.raises msg => internalErrorResponse msg

/-- Modelled from the spec: the streaming path of src/server/app.py
(absent from the tree) — once a stream is obtained the status is 200 and
the body is the framed stream; if obtaining the stream raises
synchronously, a 500 error envelope is returned. -/
def handleStreaming (id : String) (created : Nat) (model : String)
    (s : StreamSetup) : HttpResponse :=
  match s with
  | StreamSetup.ok outcome =>
    { status := 200, body := HttpBody.sse (encodeStream id created model outcome) }
  | StreamSetup.raisesBeforeStart msg => internalErrorResponse msg

/-- Modelled from the spec: an incoming request body in which the
optional fields may be omitted (`none` in the outer option means the
field is absent from the JSON body). -/
structure IncomingRequestBody where
  model : String
  messages : List OpenAIMessage
  stream : Option (Option Bool) := none
  max_tokens : Option (Option Int) := none
  temperature : Option (Option Float) := none

/-- Parsing an incoming body into `OpenAIChatCompletionRequest` applies
the field defaults declared in src/server/openai_models.py: `stream`
defaults to `False`, `max_tokens` and `temperature` default to `None`. -/
def parseChatRequest (b : IncomingRequestBody) : OpenAIChatCompletionRequest :=
  { model := b.model, messages := b.messages,
    stream := b.stream.getD (some false),
    max_tokens := b.max_tokens.getD none,
    temperature := b.temperature.getD none }

/-- Modelled from the spec: the endpoint routes by the request's
streaming flag (a `None` or `False` flag selects the aggregator path). -/
def routesToStreaming (req : OpenAIChatCompletionRequest) : Bool :=
  req.stream.getD false

/-- Modelled from the spec: the whole endpoint — route by the streaming
flag to the aggregator or the streaming encoder. -/
def handleRequest (id : String) (created : Nat) (req : OpenAIChatCompletionRequest)
    (sync : EngineResult) (setup : StreamSetup) : HttpResponse :=
  if routesToStreaming req then handleStreaming id created req.model setup
  else handleNonStreaming id created req.model sync

/-! ### Helper notions for the streamed content -/

/-- The non-empty `delta.content` fields of one chunk, across all its
choices. -/
def chunkContents (c : OpenAIChatCompletionChunk) : List String :=
  c.choices.filterMap fun ch =>
    match ch.delta.content with
    | some s => if s = "" then none else some s
    | none => none

/-- All non-empty `delta.content` fields of an SSE body, in emission
order. -/
def emittedContents : List SSEItem → List String
  | [] => []
  | SSEItem.chunk c :: rest => chunkContents c ++ emittedContents rest
  | SSEItem.done :: rest => emittedContents rest

/-- The content strings of the events accepted by the classifier, in
engine emission order. -/
def acceptedContents (events : List RawEngineEvent) : List String :=
  events.filterMap fun e => (classify e).bind fun d => d.content

/-- The events of the streaming test
`test_successful_streaming_completion`: two well-shaped events from
`some_agent`, one well-shaped event from `other_agent`, and one
malformed event whose payload's first element has no `content`. -/
def testEvents : List RawEngineEvent :=
  [ { source := "some_agent", payload := Payload.pair (PayloadItem.messageChunk "Hello, ") (some ()) },
    { source := "some_agent", payload := Payload.pair (PayloadItem.messageChunk "world!") (some ()) },
    { source := "other_agent", payload := Payload.pair (PayloadItem.messageChunk "ignore this") (some ()) },
    { source := "some_agent", payload := Payload.pair PayloadItem.other (some ()) } ]

theorem classify_eq_some (e : RawEngineEvent) (d : OpenAIChatCompletionChoiceDelta)
    (h : classify e = some d) :
    d.role = none ∧ ∃ c, d.content = some c ∧ c ≠ "" := by
  rcases e with ⟨src, meta, p⟩
  cases p with
  | nonPair => simp [classify] at h
  | pair first second =>
    cases first with
    | other => simp [classify] at h
    | messageChunk c =>
      by_cases hc : c = ""
      · simp [classify, hc] at h
      · simp [classify, hc] at h
        subst h
        exact ⟨rfl, c, rfl, hc⟩

theorem emittedContents_append (a b : List SSEItem) :
    emittedContents (a ++ b) = emittedContents a ++ emittedContents b := by
  induction a with
  | nil => rfl
  | cons x rest ih =>
    cases x with
    | chunk c => simp [emittedContents, ih]
    | done => simp [emittedContents, ih]

theorem emittedContents_chunkItems (id : String) (cr : Nat) (model : String)
    (events : List RawEngineEvent) :
    emittedContents (chunkItems id cr model events) = acceptedContents events := by
  induction events with
  | nil => rfl
  | cons e evs ih =>
    unfold chunkItems acceptedContents at *
    rw [List.filterMap_cons, List.filterMap_cons]
    cases hc : classify e with
    | none => simpa using ih
    | some d =>
      obtain ⟨hrole, c, hcontent, hne⟩ := classify_eq_some e d hc
      simp only [List.map_cons, hcontent, Option.some_bind]
      unfold emittedContents
      rw [ih]
      simp [chunkContents, contentChunk, hcontent, hne]

/-! ### Claims -/

/-- Claim C1: for every streaming request, the first emitted chunk has
`delta.role = "assistant"` and `delta.content = ""`; when the engine
stream completes without raising, the last chunk before the sentinel has
an empty delta (both fields absent) and `finish_reason = "stop"`; and the
`data: [DONE]` sentinel is emitted if and only if the engine's stream
completed without raising. -/
theorem c1_stream_framing (id : String) (cr : Nat) (model : String) (oc : StreamOutcome) :
    (∃ rest, encodeStream id cr model oc = SSEItem.chunk (roleChunk id cr model) :: rest)
    ∧ (roleChunk id cr model).choices.map (fun ch => (ch.delta.role, ch.delta.content))
        = [(some "assistant", some "")]
    ∧ (SSEItem.done ∈ encodeStream id cr model oc ↔ ∃ evs, oc = StreamOutcome.ok evs)
    ∧ (∀ evs, oc = StreamOutcome.ok evs →
        encodeStream id cr model oc
            = (SSEItem.chunk (roleChunk id cr model) :: chunkItems id cr model evs)
              ++ [SSEItem.chunk (finishChunk id cr model), SSEItem.done]
          ∧ (finishChunk id cr model).choices.map (fun ch => (ch.delta, ch.finish_reason))
            = [({ role := none, content := none }, some "stop")]) := by
  refine ⟨?_, rfl, ?_, ?_⟩
  · cases oc with
    | ok evs => exact ⟨_, rfl⟩
    | raisesAfter evs => exact ⟨_, rfl⟩
  · cases oc with
    | ok evs =>
      simp only [encodeStream]
      constructor
      · intro _; exact ⟨evs, rfl⟩
      · intro _; simp [List.mem_append, List.mem_cons]
    | raisesAfter evs =>
      simp only [encodeStream]
      constructor
      · intro hmem
        rcases List.mem_cons.mp hmem with h | h
        · exact absurd h (by simp)
        · rcases List.mem_map.mp h with ⟨d, _, hd⟩
          exact absurd hd (by simp)
      · rintro ⟨evs2, h⟩
        exact absurd h (by simp)
  · rintro evs rfl
    exact ⟨rfl, rfl⟩

/-- Witness for C1 at the events of the streaming test: the sentinel is
present on clean completion and the body decomposes as role chunk,
content chunks, finish chunk, sentinel. -/
theorem c1_stream_framing_witness :
    SSEItem.done ∈ encodeStream "chatcmpl-1" 0 "test-model-stream" (StreamOutcome.ok testEvents)
    ∧ encodeStream "chatcmpl-1" 0 "test-model-stream" (StreamOutcome.ok testEvents)
        = (SSEItem.chunk (roleChunk "chatcmpl-1" 0 "test-model-stream")
            :: chunkItems "chatcmpl-1" 0 "test-model-stream" testEvents)
          ++ [SSEItem.chunk (finishChunk "chatcmpl-1" 0 "test-model-stream"), SSEItem.done] := by
  have h := c1_stream_framing "chatcmpl-1" 0 "test-model-stream" (StreamOutcome.ok testEvents)
  exact ⟨h.2.2.1.mpr ⟨testEvents, rfl⟩, (h.2.2.2 testEvents rfl).1⟩

/-- Claim C2: for every successful stream, the list (hence the
concatenation) of the non-empty `delta.content` fields of the emitted
chunks, in emission order, equals the list (hence the concatenation) of
the contents of the events accepted by the classifier — no reordering,
duplication, or drop. -/
theorem c2_content_concat (id : String) (cr : Nat) (model : String)
    (events : List RawEngineEvent) :
    emittedContents (encodeStream id cr model (StreamOutcome.ok events))
        = acceptedContents events
    ∧ String.join (emittedContents (encodeStream id cr model (StreamOutcome.ok events)))
        = String.join (acceptedContents events) := by
  have hlist : emittedContents (encodeStream id cr model (StreamOutcome.ok events))
      = acceptedContents events := by
    show emittedContents (SSEItem.chunk (roleChunk id cr model)
        :: chunkItems id cr model events
          ++ [SSEItem.chunk (finishChunk id cr model), SSEItem.done])
      = acceptedContents events
    simp only [emittedContents, List.append_eq]
    rw [emittedContents_append, emittedContents_chunkItems]
    simp [chunkContents, roleChunk, finishChunk, emittedContents]
  exact ⟨hlist, by rw [hlist]⟩

/-- Claim C3 (failing input evaluation): on the nested input of
`test_nested_think_tags` the code removes only up to the first closing
marker, leaving a dangling tail, instead of removing the outermost span
and returning the empty string as the repository's own test expects. -/
theorem c3_nested_eval :
    remove_think_tags "<think>outer <think>inner</think> outer</think>" = " outer</think>"
    ∧ remove_think_tags "<think>outer <think>inner</think> outer</think>" ≠ "" :=
  ⟨by decide, by decide⟩

/-- Claim C5: if the engine's stream raises after streaming has begun,
the response status is still 200, the SSE body holds at least one chunk
(the role chunk is always flushed first), no error envelope is sent, and
the `[DONE]` sentinel appears nowhere in the body. -/
theorem c5_midstream_truncation (id : String) (cr : Nat) (model : String)
    (events : List RawEngineEvent) :
    (handleStreaming id cr model (StreamSetup.ok (StreamOutcome.raisesAfter events))).status = 200
    ∧ ∃ items,
        (handleStreaming id cr model (StreamSetup.ok (StreamOutcome.raisesAfter events))).body
            = HttpBody.sse items
        ∧ 0 < items.length
        ∧ SSEItem.done ∉ items
        ∧ ∀ err,
            (handleStreaming id cr model (StreamSetup.ok (StreamOutcome.raisesAfter events))).body
              ≠ HttpBody.errorJson err := by
  refine ⟨rfl, encodeStream id cr model (StreamOutcome.raisesAfter events), rfl, ?_, ?_, ?_⟩
  · simp [encodeStream]
  · intro hmem
    simp only [encodeStream] at hmem
    rcases List.mem_cons.mp hmem with h | h
    · exact absurd h (by simp)
    · rcases List.mem_map.mp h with ⟨d, _, hd⟩
      exact absurd hd (by simp)
  · intro err h
    simp [handleStreaming] at h

/-- Witness for C5 at the scenario of
`test_streaming_with_pre_stream_error_in_generator_iteration`: the engine
stream raises on its first resumption, after the role chunk was
flushed. -/
theorem c5_midstream_truncation_witness :
    (handleStreaming "chatcmpl-2" 0 "test-model-stream-fail"
        (StreamSetup.ok (StreamOutcome.raisesAfter []))).status = 200
    ∧ ∃ items,
        (handleStreaming "chatcmpl-2" 0 "test-model-stream-fail"
            (StreamSetup.ok (StreamOutcome.raisesAfter []))).body = HttpBody.sse items
        ∧ 0 < items.length
        ∧ SSEItem.done ∉ items :=
  have h := c5_midstream_truncation "chatcmpl-2" 0 "test-model-stream-fail" []
  ⟨h.1, h.2.imp fun _ hp => ⟨hp.1, hp.2.1, hp.2.2.1⟩⟩

/-- Claim C6: a failure raised before any response bytes are committed —
on the synchronous aggregation path or during stream setup — yields HTTP
status 500 with an error envelope whose `type` is
`internal_server_error` and whose `message` is the raised failure's
description. -/
theorem c6_precommit_error (id : String) (cr : Nat) (model : String) (msg : String) :
    handleNonStreaming id cr model (EngineResult.raises msg)
        = { status := 500,
            body := HttpBody.errorJson
              { error := { type := "internal_server_error", message := msg } } }
    ∧ handleStreaming id cr model (StreamSetup.raisesBeforeStart msg)
        = { status := 500,
            body := HttpBody.errorJson
              { error := { type := "internal_server_error", message := msg } } } :=
  ⟨rfl, rfl⟩

/-- Claim C7: on the non-streaming path with a successful engine result,
the response is a 200 completion envelope whose single choice carries
the cleaned text as assistant content with finish reason `stop`, and
whose usage is the placeholder zero triple. -/
theorem c7_nonstreaming_success (id : String) (cr : Nat) (model : String) (text : String) :
    handleNonStreaming id cr model (EngineResult.ok text)
        = { status := 200,
            body := HttpBody.json (buildCompletionResponse id cr model (remove_think_tags text)) }
    ∧ (buildCompletionResponse id cr model (remove_think_tags text)).choices.map
          (fun ch => (ch.index, ch.message.role, ch.message.content, ch.finish_reason))
        = [(0, "assistant", some (remove_think_tags text), some "stop")]
    ∧ (buildCompletionResponse id cr model (remove_think_tags text)).usage
        = { prompt_tokens := 0, completion_tokens := 0, total_tokens := 0 } :=
  ⟨rfl, rfl, rfl⟩

/-- Claim C9: the classifier is total (a Lean function) and rejects every
event whose payload is not a two-element structure whose first element
exposes a non-empty string content: such an event yields no delta and
contributes no visible chunk to the framed stream. -/
theorem c9_classifier_rejects (e : RawEngineEvent) (h : isWellShaped e.payload = false) :
    classify e = none
    ∧ ∀ (id : String) (cr : Nat) (model : String),
        encodeStream id cr model (StreamOutcome.ok [e])
          = [SSEItem.chunk (roleChunk id cr model),
             SSEItem.chunk (finishChunk id cr model), SSEItem.done] := by
  have hnone : classify e = none := by
    rcases e with ⟨src, meta, p⟩
    cases p with
    | nonPair => rfl
    | pair first second =>
      cases first with
      | other => rfl
      | messageChunk c =>
        have hc : c = "" := by simpa [isWellShaped] using h
        simp [classify, hc]
  refine ⟨hnone, ?_⟩
  intro id cr model
  simp [encodeStream, chunkItems, List.filterMap_cons, hnone]

/-- Witness for C9 at the malformed event of the streaming test (payload
pair whose first element exposes no content string). -/
theorem c9_classifier_rejects_witness :
    isWellShaped (Payload.pair PayloadItem.other (some ())) = false
    ∧ classify { source := "some_agent", payload := Payload.pair PayloadItem.other (some ()) }
        = none :=
  ⟨rfl, (c9_classifier_rejects
    { source := "some_agent", payload := Payload.pair PayloadItem.other (some ()) } rfl).1⟩

/-- Claim C10: an incoming body that omits `stream` parses to a request
with `stream = false` and is routed to the non-streaming aggregator
path; omitted `max_tokens` and `temperature` parse to `none`. -/
theorem c10_request_defaults (b : IncomingRequestBody) (h : b.stream = none) :
    (parseChatRequest b).stream = some false
    ∧ routesToStreaming (parseChatRequest b) = false
    ∧ (∀ (id : String) (cr : Nat) (sync : EngineResult) (setup : StreamSetup),
        handleRequest id cr (parseChatRequest b) sync setup
          = handleNonStreaming id cr (parseChatRequest b).model sync)
    ∧ (b.max_tokens = none → (parseChatRequest b).max_tokens = none)
    ∧ (b.temperature = none → (parseChatRequest b).temperature = none) := by
  have hstream : (parseChatRequest b).stream = some false := by
    simp [parseChatRequest, h]
  have hroute : routesToStreaming (parseChatRequest b) = false := by
    simp [routesToStreaming, hstream]
  refine ⟨hstream, hroute, ?_, ?_, ?_⟩
  · intro id cr sync setup
    simp [handleRequest, hroute]
  · intro hm
    simp [parseChatRequest, hm]
  · intro ht
    simp [parseChatRequest, ht]

/-- Witness for C10 at the body of the non-streaming test with `stream`
omitted entirely. -/
theorem c10_request_defaults_witness :
    ({ model := "test-model",
       messages := [{ role := "user", content := "Hello" }] } : IncomingRequestBody).stream = none
    ∧ (parseChatRequest
        { model := "test-model",
          messages := [{ role := "user", content := "Hello" }] }).stream = some false
    ∧ (parseChatRequest
        { model := "test-model",
          messages := [{ role := "user", content := "Hello" }] }).max_tokens = none :=
  have h := c10_request_defaults
    { model := "test-model", messages := [{ role := "user", content := "Hello" }] } rfl
  ⟨rfl, h.1, h.2.2.2.1 rfl⟩

/-- Claim C8: on every input in which the regex `<think>.*?</think>`
has no match — no occurrence of the opening marker is followed by an
occurrence of the closing marker — `remove_think_tags` returns the input
unchanged, unmatched or mismatched markers left verbatim. -/
theorem c8_unmatched_unchanged (s : String) (h : hasMatch s.data = false) :
    remove_think_tags s = s := by
  cases s with
  | mk l =>
    unfold remove_think_tags
    rw [removeAux_of_not_hasMatch _ _ h]

/-- Witness for C8 at the three unmatched inputs of the text-utils
tests: opening marker with no closing marker, closing marker with no
opening marker, and a mismatched closing spelling. -/
theorem c8_unmatched_unchanged_witness :
    hasMatch "<think>no end tag".data = false
    ∧ remove_think_tags "<think>no end tag" = "<think>no end tag"
    ∧ hasMatch "no start tag</think>".data = false
    ∧ remove_think_tags "no start tag</think>" = "no start tag</think>"
    ∧ hasMatch "<think>mismatched</thinkk>".data = false
    ∧ remove_think_tags "<think>mismatched</thinkk>" = "<think>mismatched</thinkk>" :=
  ⟨by decide, c8_unmatched_unchanged _ (by decide),
   by decide, c8_unmatched_unchanged _ (by decide),
   by decide, c8_unmatched_unchanged _ (by decide)⟩

end DeerFlow
